import Mathlib

/-!
Verification of the task-store / tool-executor / chat-orchestration core of a
todo-chatbot backend.  The Python services are shallowly embedded: the SQL
store is a `List` of records, timestamps are integers counting microseconds
(one day = 86400000000, matching naive UTC `datetime` arithmetic at microsecond
granularity), and SQLModel rows become Lean structures.  `dict` parameters of
the tool executor become structures of `Option` fields (`none` models an
absent key or an explicit `None` value; the two are indistinguishable to the
`v is not None` filters of the source).  Python's stable `list.sort` and the
SQL `ORDER BY` are embedded as a stable insertion sort, which is extensionally
the unique stable sort for a total comparison.
-/

namespace TodoApp

/-- ASCII lowercasing of a string, character by character (models Python's
`str.lower()` on the ASCII inputs this development evaluates). -/
def lowerStr (s : String) : String := String.mk (s.data.map Char.toLower)

/-- Returns `true` iff `needle` occurs as a contiguous sublist of `haystack`
(models SQL `LIKE '%needle%'` / Python `in` on strings). -/
def charsContain (needle : List Char) : List Char → Bool
  | [] => needle.isEmpty
  | c :: rest => List.isPrefixOf needle (c :: rest) || charsContain needle rest

/-- Case-insensitive substring test, models SQL `ILIKE '%needle%'`. -/
def containsCI (haystack needle : String) : Bool :=
  charsContain (lowerStr needle).data (lowerStr haystack).data

/-- Lexicographic byte-order comparison on strings (models SQL's BINARY
collation used by `ORDER BY title`). -/
def lexLe : List Char → List Char → Bool
  | [], _ => true
  | _ :: _, [] => false
  | a :: as, b :: bs =>
    if a.toNat < b.toNat then true
    else if b.toNat < a.toNat then false
    else lexLe as bs

def strLe (a b : String) : Bool := lexLe a.data b.data

/-- Stable insertion of `a` into `l`: `a` is placed before the first element
`b` with `le a b`.  Used only through `stableSort`. -/
def stableInsert (le : α → α → Bool) (a : α) : List α → List α
  | [] => [a]
  | b :: bs => if le a b then a :: b :: bs else b :: stableInsert le a bs

/-- Stable sort (insertion sort).  For a total comparison this computes the
same list as any stable sort, in particular Python's `list.sort` and a
deterministic reading of SQL `ORDER BY`. -/
def stableSort (le : α → α → Bool) : List α → List α
  | [] => []
  | a :: as => stableInsert le a (stableSort le as)

/-- A row of the `todos` table (`app/models/todo.py`).  `tags` holds the
deserialized form of the `tags_json` column; timestamps and due dates are
microseconds since an epoch midnight. -/
structure Todo where
  id : Nat
  user_id : Nat
  title : String
  description : Option String
  completed : Bool
  priority : String
  tags : List String
  due_date : Option Int
  created_at : Int
  updated_at : Int
deriving DecidableEq, Repr

/-- Embeds `TodoCreate` (`app/models/todo.py`). -/
structure TodoCreate where
  title : String
  description : Option String := none
  completed : Bool := false
  priority : String := "medium"
  tags : List String := []
  due_date : Option Int := none
deriving DecidableEq, Repr

/-- Embeds `TodoUpdate` (`app/models/todo.py`); a field is `some v` exactly when it
was explicitly set (pydantic's `exclude_unset` view). -/
structure TodoUpdate where
  title : Option String := none
  description : Option String := none
  completed : Option Bool := none
  priority : Option String := none
  tags : Option (List String) := none
  due_date : Option Int := none
deriving DecidableEq, Repr

/-- The fixed priority rank of `TodoService.get_user_todos`:
`{"high": 0, "medium": 1, "low": 2}` with default 3. -/
def priorityRank (p : String) : Nat :=
  if p == "high" then 0 else if p == "medium" then 1 else if p == "low" then 2 else 3

/-- The search predicate of `get_user_todos`: case-insensitive substring match
on title or description (a NULL description never matches, as in SQL). -/
def matchesSearch (t : Todo) (s : String) : Bool :=
  containsCI t.title s ||
    (match t.description with
     | some d => containsCI d s
     | none => false)

/-- The sequential filter pipeline of `TodoService.get_user_todos`
(lines 33-50): owner scope, then search, priority and completed filters.
`search`/`priority` are skipped when absent or empty (Python truthiness);
`completed` is skipped only when absent (`is not None`). -/
def filterTodos (db : List Todo) (user_id : Nat)
    (search priority : Option String) (completed : Option Bool) : List Todo :=
  let l0 := db.filter (fun t => t.user_id == user_id)
  let l1 := match search with
    | some s => if s == "" then l0 else l0.filter (fun t => matchesSearch t s)
    | none => l0
  let l2 := match priority with
    | some p => if p == "" then l1 else l1.filter (fun t => t.priority == p)
    | none => l1
  match completed with
  | some c => l2.filter (fun t => t.completed == c)
  | none => l2

/-- Embeds `ORDER BY due_date ASC` with SQL NULLs first. -/
def dueAsc (a b : Todo) : Bool :=
  match a.due_date, b.due_date with
  | none, _ => true
  | some _, none => false
  | some x, some y => decide (x ≤ y)

/-- The sorting and pagination tail of `TodoService.get_user_todos`
(lines 59-82): priority sort is done in memory by rank with
`reverse=(sort_order == "desc")` and then sliced `[skip : skip+limit]`;
the other keys order by the column and apply `offset skip`/`limit`. -/
def sortAndPage (l : List Todo) (skip limit : Nat)
    (sort_by sort_order : String) : List Todo :=
  if sort_by == "priority" then
    let sorted :=
      if sort_order == "desc" then
        stableSort (fun a b => decide (priorityRank b.priority ≤ priorityRank a.priority)) l
      else
        stableSort (fun a b => decide (priorityRank a.priority ≤ priorityRank b.priority)) l
    (sorted.drop skip).take limit
  else
    let sorted :=
      if sort_by == "due_date" then
        if sort_order == "asc" then stableSort dueAsc l
        else stableSort (fun a b => dueAsc b a) l
      else if sort_by == "title" then
        if sort_order == "asc" then stableSort (fun a b => strLe a.title b.title) l
        else stableSort (fun a b => strLe b.title a.title) l
      else
        if sort_order == "asc" then stableSort (fun a b => decide (a.created_at ≤ b.created_at)) l
        else stableSort (fun a b => decide (b.created_at ≤ a.created_at)) l
    (sorted.drop skip).take limit

/-- Embeds `TodoService.get_user_todos`.  Note the tag branch (lines 53-57 of the
source): when a non-empty `tag` filter is present the function returns the
complete filtered list immediately, before the sorting and pagination code is
reached. -/
def get_user_todos (db : List Todo) (user_id : Nat) (skip limit : Nat)
    (search priority : Option String) (completed : Option Bool)
    (tag : Option String) (sort_by sort_order : String) : List Todo :=
  let l3 := filterTodos db user_id search priority completed
  match tag with
  | some tg =>
      if tg == "" then sortAndPage l3 skip limit sort_by sort_order
      else l3.filter (fun t => (t.tags.map lowerStr).contains (lowerStr tg))
  | none => sortAndPage l3 skip limit sort_by sort_order

/-- Embeds `TodoService.get_todo_by_id`: first row with matching id and owner. -/
def get_todo_by_id (db : List Todo) (todo_id user_id : Nat) : Option Todo :=
  db.find? (fun t => t.id == todo_id && t.user_id == user_id)

/-- Embeds `TodoService.create_todo`: builds a row from the creation payload and
inserts it.  `newId` is the id assigned by the database, `now` the time of the
two `utcnow` default factories. -/
def create_todo (db : List Todo) (user_id : Nat) (d : TodoCreate)
    (newId : Nat) (now : Int) : List Todo × Todo :=
  let t : Todo :=
    { id := newId, user_id := user_id, title := d.title,
      description := d.description, completed := d.completed,
      priority := d.priority, tags := d.tags, due_date := d.due_date,
      created_at := now, updated_at := now }
  (db ++ [t], t)

/-- The `setattr` loop of `TodoService.update_todo` (lines 95-97): each field
present in the `exclude_unset` view is written; nothing else — in particular
`updated_at` — is touched. -/
def applyUpdate (t : Todo) (u : TodoUpdate) : Todo :=
  let t1 := match u.title with
    | some v => { t with title := v }
    | none => t
  let t2 := match u.description with
    | some v => { t1 with description := some v }
    | none => t1
  let t3 := match u.completed with
    | some v => { t2 with completed := v }
    | none => t2
  let t4 := match u.priority with
    | some v => { t3 with priority := v }
    | none => t3
  let t5 := match u.tags with
    | some v => { t4 with tags := v }
    | none => t4
  match u.due_date with
  | some v => { t5 with due_date := some v }
  | none => t5

/-- Embeds `TodoService.update_todo`: fetch by id and owner, apply the supplied
fields, commit the row (keyed by primary key). -/
def update_todo (db : List Todo) (todo_id user_id : Nat) (u : TodoUpdate) :
    List Todo × Option Todo :=
  match get_todo_by_id db todo_id user_id with
  | none => (db, none)
  | some t =>
      let t' := applyUpdate t u
      (db.map (fun x => if x.id == t.id then t' else x), some t')

/-- Embeds `TodoService.mark_done`: a direct `UPDATE ... SET completed=true,
updated_at=utcnow()` on the rows matching id and owner, then a re-fetch. -/
def mark_done (db : List Todo) (todo_id user_id : Nat) (now : Int) :
    List Todo × Option Todo :=
  let db' := db.map (fun t =>
    if t.id == todo_id && t.user_id == user_id then
      { t with completed := true, updated_at := now }
    else t)
  (db', get_todo_by_id db' todo_id user_id)

/-- Embeds `TodoService.mark_undone`: same direct write with `completed=false`. -/
def mark_undone (db : List Todo) (todo_id user_id : Nat) (now : Int) :
    List Todo × Option Todo :=
  let db' := db.map (fun t =>
    if t.id == todo_id && t.user_id == user_id then
      { t with completed := false, updated_at := now }
    else t)
  (db', get_todo_by_id db' todo_id user_id)

/-- Microseconds per day; `now.fdiv usPerDay * usPerDay` is the midnight
`now.replace(hour=0, minute=0, second=0, microsecond=0)`. -/
def usPerDay : Int := 86400000000

/-- Midnight of the calendar day containing `now`
(`now.replace(hour=0, minute=0, second=0, microsecond=0)`). -/
def dayStart (now : Int) : Int := now.fdiv usPerDay * usPerDay

/-- Fuel-driven floor-log2 recursion (structural, so it reduces in the
kernel). -/
def log2fuel : Nat → Nat → Nat
  | 0, _ => 0
  | fuel + 1, n => if 2 ≤ n then log2fuel fuel (n / 2) + 1 else 0

/-- Floor of log2 of `n` (0 for `n = 0`); `n` itself is enough fuel. -/
def natLog2 (n : Nat) : Nat := log2fuel n n

/-- Rounds the fraction `num / den` to the nearest integer, ties to even. -/
def rne (num den : Nat) : Nat :=
  let q := num / den
  let r := num % den
  if 2 * r < den then q
  else if den < 2 * r then q + 1
  else if q % 2 = 0 then q else q + 1

/-- Floor of log2 of the positive rational `num / den`: the unique `e` with
`2 ^ e ≤ num / den < 2 ^ (e + 1)`. -/
def ratLog2 (num den : Nat) : Int :=
  let a := natLog2 num
  let b := natLog2 den
  if b ≤ a then
    (if den * 2 ^ (a - b) ≤ num then ((a - b : Nat) : Int)
     else ((a - b : Nat) : Int) - 1)
  else
    (if den ≤ num * 2 ^ (b - a) then -((b - a : Nat) : Int)
     else -((b - a : Nat) : Int) - 1)

/-- The IEEE-754 double nearest to the non-negative fraction `num / den`
(round to nearest, ties to even; subnormals below `2 ^ (-1022)` rounded to
multiples of `2 ^ (-1074)`), returned as a dyadic fraction `n / 2 ^ k`.
Overflow is not modeled: every use in this file stays below `2 ^ 7`. -/
def flRat (num den : Nat) : Nat × Nat :=
  if num = 0 ∨ den = 0 then (0, 0)
  else
    let e := ratLog2 num den
    if e < -1022 then
      (rne (num * 2 ^ 1074) den, 1074)
    else if e ≤ 52 then
      (rne (num * 2 ^ (52 - e).toNat) den, (52 - e).toNat)
    else
      (rne num (den * 2 ^ (e - 52).toNat) * 2 ^ (e - 52).toNat, 0)

/-- Python's `int(completed / total * 100)` evaluated exactly as CPython
does: `completed / total` is rounded to the nearest double, the product with
100 is rounded to the nearest double again, and `int()` truncates toward
zero.  This agrees with `floor(completed * 100 / total)` whenever the
intermediate values are exactly representable (e.g. 1/4 → 25) but can fall
one short of it, e.g. `pyPercent 29 100 = 28` because the double nearest to
29/100 times 100 is 28.999999999999996. -/
def pyPercent (completed total : Nat) : Nat :=
  let d := flRat completed total
  let p := flRat (d.1 * 100) (2 ^ d.2)
  p.1 / 2 ^ p.2

/-- The aggregate record returned by `TodoService.get_user_statistics`. -/
structure Stats where
  total : Nat
  completed : Nat
  pending : Nat
  completion_percentage : Nat
  high_priority : Nat
  overdue : Nat
  due_today : Nat
  due_this_week : Nat
deriving DecidableEq, Repr

/-- Embeds `TodoService.get_user_statistics` (lines 136-170).  The
completion percentage is Python's `int(completed_count / total_count * 100)`,
evaluated in double precision via `pyPercent`. -/
def get_user_statistics (db : List Todo) (user_id : Nat) (now : Int) : Stats :=
  let todos := db.filter (fun t => t.user_id == user_id)
  let completed_count := (todos.filter (fun t => t.completed)).length
  let pending_count := todos.length - completed_count
  let high_priority_count :=
    (todos.filter (fun t => t.priority == "high" && !t.completed)).length
  let overdue_count :=
    (todos.filter (fun t =>
      (match t.due_date with
       | some d => decide (d < now)
       | none => false) && !t.completed)).length
  let today_start := dayStart now
  let today_end := today_start + usPerDay
  let due_today_count :=
    (todos.filter (fun t =>
      (match t.due_date with
       | some d => decide (today_start ≤ d) && decide (d < today_end)
       | none => false) && !t.completed)).length
  let week_end := now + 7 * usPerDay
  let due_this_week_count :=
    (todos.filter (fun t =>
      (match t.due_date with
       | some d => decide (now ≤ d) && decide (d ≤ week_end)
       | none => false) && !t.completed)).length
  let total_count := todos.length
  let completion_percentage :=
    if total_count > 0 then pyPercent completed_count total_count else 0
  { total := total_count, completed := completed_count,
    pending := pending_count, completion_percentage := completion_percentage,
    high_priority := high_priority_count, overdue := overdue_count,
    due_today := due_today_count, due_this_week := due_this_week_count }

/-- Parameter bag of the `add_task` tool (`MCPToolExecutor._add_task`).
`priority` is two-level because `params.get("priority", "medium")` returns the
default only when the key is absent: `none` = key absent, `some none` = key
present with a null value, `some (some s)` = key present with string `s`. -/
structure AddTaskParams where
  title : Option String := none
  description : Option String := none
  priority : Option (Option String) := none
  tags : List String := []
  due_date : Option Int := none
deriving DecidableEq, Repr

/-- The uniform failure payload of the executor envelopes:
`(error, message)`. -/
abbrev ToolError := String × String

/-- Embeds `MCPToolExecutor._add_task` (lines 38-97): reject a missing or empty
title, reject a priority outside `low`/`medium`/`high`, otherwise build a
`TodoCreate` with `completed=False` and insert it via `create_todo`. -/
def addTask (db : List Todo) (user_id : Nat) (p : AddTaskParams)
    (newId : Nat) (now : Int) : List Todo × Except ToolError Todo :=
  match p.title with
  | none => (db, .error ("Missing required field: title", "Task title is required"))
  | some title =>
      if title == "" then
        (db, .error ("Missing required field: title", "Task title is required"))
      else
        let priority : Option String :=
          match p.priority with
          | none => some "medium"
          | some v => v
        match priority with
        | some pr =>
            if ["low", "medium", "high"].contains pr then
              let d : TodoCreate :=
                { title := title, description := p.description,
                  priority := pr, completed := false, tags := p.tags,
                  due_date := p.due_date }
              let r := create_todo db user_id d newId now
              (r.1, .ok r.2)
            else
              (db, .error ("Invalid priority level",
                           "Priority must be one of low, medium, or high"))
        | none =>
            (db, .error ("Invalid priority level",
                         "Priority must be one of low, medium, or high"))

/-- Parameter bag of the `list_tasks` tool; `none` = key absent so the
`params.get(..., default)` defaults apply. -/
structure ListTasksParams where
  skip : Option Nat := none
  limit : Option Nat := none
  search : Option String := none
  priority : Option String := none
  completed : Option Bool := none
  tag : Option String := none
  sort_by : Option String := none
  sort_order : Option String := none
deriving DecidableEq, Repr

/-- Success payload of `MCPToolExecutor._list_tasks`. -/
structure ListTasksResult where
  tasks : List Todo
  total : Nat
  skip : Nat
  limit : Nat
deriving DecidableEq, Repr

/-- Embeds `MCPToolExecutor._list_tasks` (lines 99-135): forwards to
`get_user_todos` with the documented defaults and reports
`total = len(tasks)` — the length of the returned page. -/
def listTasks (db : List Todo) (user_id : Nat) (p : ListTasksParams) :
    ListTasksResult :=
  let todos := get_user_todos db user_id (p.skip.getD 0) (p.limit.getD 50)
    p.search p.priority p.completed p.tag
    (p.sort_by.getD "created_at") (p.sort_order.getD "desc")
  { tasks := todos, total := todos.length,
    skip := p.skip.getD 0, limit := p.limit.getD 50 }

/-- Parameter bag of the `update_task` tool.  A field is `none` when the key
is absent or its value is `None`; both are removed by the executor's
`v is not None` filter, so the conflation is exact. -/
structure UpdateTaskParams where
  task_id : Option Nat := none
  title : Option String := none
  description : Option String := none
  priority : Option String := none
  completed : Option Bool := none
deriving DecidableEq, Repr

/-- Embeds `MCPToolExecutor._update_task` (lines 208-260): require `task_id`, drop
the parameters whose value is `None` (and only those — an empty string
survives the filter), fail with "No fields to update" when nothing remains,
otherwise forward to `update_todo`. -/
def updateTask (db : List Todo) (user_id : Nat) (p : UpdateTaskParams) :
    List Todo × Except ToolError Todo :=
  match p.task_id with
  | none => (db, .error ("Missing required field: task_id", "Task ID is required"))
  | some tid =>
      if p.title.isNone && p.description.isNone && p.priority.isNone
          && p.completed.isNone then
        (db, .error ("No fields to update", "At least one field must be updated"))
      else
        let u : TodoUpdate :=
          { title := p.title, description := p.description,
            priority := p.priority, completed := p.completed }
        match update_todo db tid user_id u with
        | (_, none) => (db, .error ("Task not found", "Could not find the specified task"))
        | (db', some t) => (db', .ok t)

/-- The `update_task` tool wrapper of `TodoAgent.process_message`
(`app/agent.py` lines 135-158): optional arguments default to the empty
string, and only truthy (non-empty) arguments are put into the parameter bag;
`completed` is parsed by `completed.lower() == "true"`. -/
def agent_update_task (db : List Todo) (user_id task_id : Nat)
    (title description priority completed : String) :
    List Todo × Except ToolError Todo :=
  let p : UpdateTaskParams :=
    { task_id := some task_id,
      title := if title == "" then none else some title,
      description := if description == "" then none else some description,
      priority := if priority == "" then none else some priority,
      completed := if completed == "" then none
                   else some (lowerStr completed == "true") }
  updateTask db user_id p

/-- A row of the `conversations` table (`app/models/conversation.py`). -/
structure Conversation where
  id : Nat
  user_id : Nat
  title : Option String
  is_active : Bool
  created_at : Int
  updated_at : Int
deriving DecidableEq, Repr

/-- Embeds `ConversationService.get_conversation`: first row with matching id and
owner. -/
def get_conversation (db : List Conversation) (conversation_id user_id : Nat) :
    Option Conversation :=
  db.find? (fun c => c.id == conversation_id && c.user_id == user_id)

/-- Embeds `ConversationService.create_conversation` with `is_active=True`. -/
def create_conversation (db : List Conversation) (user_id : Nat)
    (title : Option String) (newId : Nat) (now : Int) :
    List Conversation × Conversation :=
  let c : Conversation :=
    { id := newId, user_id := user_id, title := title, is_active := true,
      created_at := now, updated_at := now }
  (db ++ [c], c)

/-- Embeds `ConversationService.get_or_create_conversation` (lines 172-185): when a
truthy conversation id is supplied and a row owned by the caller exists it is
returned; in every other case — including an id owned by a different user —
a fresh conversation is created.  (`if conversation_id:` makes the id 0
behave like an absent id.) -/
def get_or_create_conversation (db : List Conversation) (user_id : Nat)
    (conversation_id : Option Nat) (newId : Nat) (now : Int) :
    List Conversation × Conversation :=
  match conversation_id with
  | some cid =>
      if cid == 0 then create_conversation db user_id none newId now
      else
        match get_conversation db cid user_id with
        | some conv => (db, conv)
        | none => create_conversation db user_id none newId now
  | none => create_conversation db user_id none newId now

/-- A tool-call record as it arrives from the agent step in the chat route.
`map tool parameters result` is a mapping-typed record whose three keys are
present exactly when the corresponding field is `some`; `nonMap` is any
non-mapping value. -/
inductive TCRecord where
  | map (tool : Option String) (parameters : Option String) (result : Option String)
  | nonMap (raw : String)
deriving DecidableEq, Repr

/-- The `isinstance(tc, dict)` test of the chat route (lines 140-144). -/
def TCRecord.isMap : TCRecord → Bool
  | .map _ _ _ => true
  | .nonMap _ => false

/-- One step of the `tool_calls_data` comprehension (chat route lines
108-114): `{"tool": tc["tool"], "parameters": tc["parameters"]}`.  Indexing a
non-mapping raises `TypeError`; a missing key raises `KeyError`. -/
def extractCallTrace : TCRecord → Except String (String × String)
  | .nonMap _ => .error "TypeError: record is not a mapping"
  | .map tool params _ =>
      match tool with
      | none => .error "KeyError: tool"
      | some t =>
          match params with
          | none => .error "KeyError: parameters"
          | some p => .ok (t, p)

/-- One step of the `tool_results_data` comprehension (chat route lines
116-122): `{"tool": tc["tool"], "result": tc["result"]}`. -/
def extractResultTrace : TCRecord → Except String (String × String)
  | .nonMap _ => .error "TypeError: record is not a mapping"
  | .map tool _ result =>
      match tool with
      | none => .error "KeyError: tool"
      | some t =>
          match result with
          | none => .error "KeyError: result"
          | some r => .ok (t, r)

/-- Evaluates a Python list comprehension whose body may raise: the first
failure aborts the whole comprehension. -/
def traverseExcept (f : α → Except ε β) : List α → Except ε (List β)
  | [] => .ok []
  | a :: as =>
      match f a with
      | .error e => .error e
      | .ok b =>
          match traverseExcept f as with
          | .error e => .error e
          | .ok bs => .ok (b :: bs)

/-- The tool-call post-processing of a chat turn (chat route lines 107-152):
both storage traces are extracted from every record — the first failure
aborts the turn, which the route surfaces as a generic 500 error — and only
then is the response's `toolCalls` list computed by keeping the
mapping-typed records. -/
def chat_turn_tool_calls (tcs : List TCRecord) :
    Except String (List (String × String) × List (String × String) × List TCRecord) :=
  match traverseExcept extractCallTrace tcs with
  | .error e => .error e
  | .ok calls =>
      match traverseExcept extractResultTrace tcs with
      | .error e => .error e
      | .ok results => .ok (calls, results, tcs.filter TCRecord.isMap)

/-! ## General lemmas about the stable sort -/

theorem mem_stableInsert {le : α → α → Bool} {a x : α} {l : List α}
    (h : x ∈ stableInsert le a l) : x = a ∨ x ∈ l := by
  induction l with
  | nil =>
      simp only [stableInsert, List.mem_singleton] at h
      exact Or.inl h
  | cons b bs ih =>
      simp only [stableInsert] at h
      split at h
      · rcases List.mem_cons.mp h with h1 | h2
        · exact Or.inl h1
        · exact Or.inr h2
      · rcases List.mem_cons.mp h with h1 | h2
        · exact Or.inr (h1 ▸ List.mem_cons_self b bs)
        · rcases ih h2 with h3 | h4
          · exact Or.inl h3
          · exact Or.inr (List.mem_cons_of_mem b h4)

theorem pairwise_stableInsert {le : α → α → Bool}
    (htrans : ∀ a b c, le a b = true → le b c = true → le a c = true)
    (htotal : ∀ a b, le a b = true ∨ le b a = true)
    (a : α) {l : List α} (h : l.Pairwise (fun x y => le x y = true)) :
    (stableInsert le a l).Pairwise (fun x y => le x y = true) := by
  induction l with
  | nil => simp [stableInsert]
  | cons b bs ih =>
      rcases List.pairwise_cons.mp h with ⟨hb, hbs⟩
      simp only [stableInsert]
      split
      · next hab =>
          refine List.pairwise_cons.mpr ⟨?_, h⟩
          intro y hy
          rcases List.mem_cons.mp hy with rfl | hy'
          · exact hab
          · exact htrans a b y hab (hb y hy')
      · next hab =>
          refine List.pairwise_cons.mpr ⟨?_, ih hbs⟩
          intro y hy
          rcases mem_stableInsert hy with h1 | hy'
          · rw [h1]
            rcases htotal a b with h2 | h3
            · exact absurd h2 hab
            · exact h3
          · exact hb y hy'

theorem pairwise_stableSort {le : α → α → Bool}
    (htrans : ∀ a b c, le a b = true → le b c = true → le a c = true)
    (htotal : ∀ a b, le a b = true ∨ le b a = true) :
    ∀ l : List α, (stableSort le l).Pairwise (fun x y => le x y = true)
  | [] => by simp [stableSort]
  | a :: as =>
      pairwise_stableInsert htrans htotal a
        (pairwise_stableSort htrans htotal as)

theorem pairwise_drop_take {R : α → α → Prop} {l : List α}
    (h : l.Pairwise R) (skip limit : Nat) :
    ((l.drop skip).take limit).Pairwise R :=
  List.Pairwise.sublist
    ((List.take_sublist limit (l.drop skip)).trans (List.drop_sublist skip l)) h

/-- The ascending priority comparison of the priority-sort branch. -/
def rankAsc (a b : Todo) : Bool :=
  decide (priorityRank a.priority ≤ priorityRank b.priority)

/-- The comparison obtained from `reverse=True` (stable descending sort). -/
def rankDesc (a b : Todo) : Bool :=
  decide (priorityRank b.priority ≤ priorityRank a.priority)

theorem pairwise_stableSort_rankAsc (l : List Todo) :
    (stableSort rankAsc l).Pairwise
      (fun a b => priorityRank a.priority ≤ priorityRank b.priority) := by
  have htrans : ∀ a b c : Todo,
      rankAsc a b = true → rankAsc b c = true → rankAsc a c = true :=
    fun a b c hab hbc =>
      decide_eq_true (le_trans (of_decide_eq_true hab) (of_decide_eq_true hbc))
  have htotal : ∀ a b : Todo, rankAsc a b = true ∨ rankAsc b a = true := by
    intro a b
    rcases Nat.le_total (priorityRank a.priority) (priorityRank b.priority) with h | h
    · exact Or.inl (decide_eq_true h)
    · exact Or.inr (decide_eq_true h)
  exact (pairwise_stableSort htrans htotal l).imp (fun hx => of_decide_eq_true hx)

theorem pairwise_stableSort_rankDesc (l : List Todo) :
    (stableSort rankDesc l).Pairwise
      (fun a b => priorityRank b.priority ≤ priorityRank a.priority) := by
  have htrans : ∀ a b c : Todo,
      rankDesc a b = true → rankDesc b c = true → rankDesc a c = true :=
    fun a b c hab hbc =>
      decide_eq_true (le_trans (of_decide_eq_true hbc) (of_decide_eq_true hab))
  have htotal : ∀ a b : Todo, rankDesc a b = true ∨ rankDesc b a = true := by
    intro a b
    rcases Nat.le_total (priorityRank b.priority) (priorityRank a.priority) with h | h
    · exact Or.inl (decide_eq_true h)
    · exact Or.inr (decide_eq_true h)
  exact (pairwise_stableSort htrans htotal l).imp (fun hx => of_decide_eq_true hx)

theorem sortAndPage_priority_asc (l : List Todo) (skip limit : Nat) :
    sortAndPage l skip limit "priority" "asc"
      = ((stableSort rankAsc l).drop skip).take limit := rfl

theorem sortAndPage_priority_desc (l : List Todo) (skip limit : Nat) :
    sortAndPage l skip limit "priority" "desc"
      = ((stableSort rankDesc l).drop skip).take limit := rfl

theorem get_user_todos_no_tag (db : List Todo) (uid skip limit : Nat)
    (search priority : Option String) (completed : Option Bool)
    (sort_by sort_order : String) :
    get_user_todos db uid skip limit search priority completed none sort_by sort_order
      = sortAndPage (filterTodos db uid search priority completed) skip limit
          sort_by sort_order := rfl

/-! ## Claim theorems -/

/-- C1: the spec demands that a tag-filtered query, like a priority-sorted
one, applies skip/limit pagination as the last step, returning at most
`limit` tasks.  The code's tag branch returns the complete filtered set and
never reaches the pagination step: with two tasks tagged "work" and
`skip=0, limit=1`, both tasks are returned. -/
theorem tag_filter_ignores_pagination :
    (get_user_todos
      [⟨1, 1, "a", none, false, "medium", ["work"], none, 0, 0⟩,
       ⟨2, 1, "b", none, false, "high", ["Work"], none, 1, 1⟩]
      1 0 1 none none none (some "work") "created_at" "desc").length = 2 := by
  decide

/-- C3: the claim says every update with a supplied field refreshes the
updated timestamp.  `update_todo` applies the supplied fields and leaves
`updated_at` untouched: updating the title of a task whose `updated_at` is 5
returns and stores the task still carrying `updated_at = 5`. -/
theorem update_does_not_refresh_timestamp :
    (update_todo [⟨1, 1, "old", none, false, "medium", [], none, 3, 5⟩] 1 1
        { title := some "new" }).2
      = some ⟨1, 1, "new", none, false, "medium", [], none, 3, 5⟩
  ∧ (update_todo [⟨1, 1, "old", none, false, "medium", [], none, 3, 5⟩] 1 1
        { title := some "new" }).1
      = [⟨1, 1, "new", none, false, "medium", [], none, 3, 5⟩] := by
  decide

/-- C5 counterexample: conversation 1 is owned by user 2; user 1 supplies
conversation id 1 and silently receives a fresh conversation (id 5) in its
place, contradicting the claim that a fresh conversation is NOT substituted
for an explicitly supplied id. -/
theorem foreign_conversation_id_gets_fresh_conversation :
    (get_or_create_conversation [⟨1, 2, none, true, 0, 0⟩] 1 (some 1) 5 7).2
      = ⟨5, 1, none, true, 7, 7⟩
  ∧ (get_or_create_conversation [⟨1, 2, none, true, 0, 0⟩] 1 (some 1) 5 7).1
      = [⟨1, 2, none, true, 0, 0⟩, ⟨5, 1, none, true, 7, 7⟩] := by
  decide

/-- C5 amended: a supplied conversation id that is nonexistent or owned by a
different user is treated as not found, and a fresh conversation IS silently
created for the caller and substituted for the supplied id. -/
theorem unowned_conversation_gets_fresh_conversation (db : List Conversation)
    (uid cid newId : Nat) (now : Int) (hcid : cid ≠ 0)
    (hnone : get_conversation db cid uid = none) :
    get_or_create_conversation db uid (some cid) newId now
      = (db ++ [⟨newId, uid, none, true, now, now⟩],
         ⟨newId, uid, none, true, now, now⟩) := by
  have hbeq : (cid == 0) = false := by simpa using hcid
  simp [get_or_create_conversation, hbeq, hnone, create_conversation]

/-- Witness for the C5 amended theorem at a concrete store: conversation 1
belongs to user 2, user 1 asks for conversation 1. -/
theorem unowned_conversation_gets_fresh_conversation_witness :
    get_or_create_conversation [⟨1, 2, none, true, 0, 0⟩] 1 (some 1) 5 7
      = ([⟨1, 2, none, true, 0, 0⟩, ⟨5, 1, none, true, 7, 7⟩],
         ⟨5, 1, none, true, 7, 7⟩) :=
  unowned_conversation_gets_fresh_conversation
    [⟨1, 2, none, true, 0, 0⟩] 1 1 5 7 (by decide) (by decide)

/-- C6 counterexample: a chat turn whose agent step yields one malformed
(non-mapping) tool-call record next to a well-formed one does not silently
drop the malformed record — the storage-trace extraction raises, so the turn
surfaces an error instead of returning a response. -/
theorem malformed_tool_record_aborts_turn :
    chat_turn_tool_calls
      [TCRecord.nonMap "not-a-dict",
       TCRecord.map (some "add_task") (some "title=Buy milk") (some "ok")]
      = Except.error "TypeError: record is not a mapping" := rfl

/-- C10: `list_tasks` reports `total = len(tasks)`, the size of the returned
page — not the number of the owner's tasks matching the filters: with three
matching tasks and `limit = 2`, the envelope's `total` is 2 while the
filtered set has 3 elements. -/
theorem list_tasks_total_is_page_length :
    (∀ (db : List Todo) (uid : Nat) (p : ListTasksParams),
      (listTasks db uid p).total = (listTasks db uid p).tasks.length)
  ∧ (listTasks
      [⟨1, 1, "a", none, false, "medium", [], none, 0, 0⟩,
       ⟨2, 1, "b", none, false, "medium", [], none, 1, 1⟩,
       ⟨3, 1, "c", none, false, "medium", [], none, 2, 2⟩]
      1 { limit := some 2 }).total = 2
  ∧ (filterTodos
      [⟨1, 1, "a", none, false, "medium", [], none, 0, 0⟩,
       ⟨2, 1, "b", none, false, "medium", [], none, 1, 1⟩,
       ⟨3, 1, "c", none, false, "medium", [], none, 2, 2⟩]
      1 none none none).length = 3 := by
  refine ⟨fun db uid p => rfl, by decide, by decide⟩

/-- C8: every priority-sorted query is ordered by the fixed rank high=0,
medium=1, low=2 — ascending direction yields high before medium before low,
descending the reverse — and on tasks with priorities [low, high, medium]
the ascending result is [high, medium, low], the descending result
[low, medium, high]. -/
theorem priority_sort_ordered_by_rank :
    (∀ (db : List Todo) (uid skip limit : Nat) (search priority : Option String)
        (completed : Option Bool),
      (get_user_todos db uid skip limit search priority completed none
          "priority" "asc").Pairwise
        (fun a b => priorityRank a.priority ≤ priorityRank b.priority)
      ∧ (get_user_todos db uid skip limit search priority completed none
          "priority" "desc").Pairwise
        (fun a b => priorityRank b.priority ≤ priorityRank a.priority))
  ∧ ((get_user_todos
        [⟨1, 1, "a", none, false, "low", [], none, 0, 0⟩,
         ⟨2, 1, "b", none, false, "high", [], none, 1, 1⟩,
         ⟨3, 1, "c", none, false, "medium", [], none, 2, 2⟩]
        1 0 100 none none none none "priority" "asc").map (fun t => t.priority)
      = ["high", "medium", "low"])
  ∧ ((get_user_todos
        [⟨1, 1, "a", none, false, "low", [], none, 0, 0⟩,
         ⟨2, 1, "b", none, false, "high", [], none, 1, 1⟩,
         ⟨3, 1, "c", none, false, "medium", [], none, 2, 2⟩]
        1 0 100 none none none none "priority" "desc").map (fun t => t.priority)
      = ["low", "medium", "high"]) := by
  refine ⟨fun db uid skip limit search priority completed => ⟨?_, ?_⟩,
          by decide, by decide⟩
  · rw [get_user_todos_no_tag, sortAndPage_priority_asc]
    exact pairwise_drop_take (pairwise_stableSort_rankAsc _) skip limit
  · rw [get_user_todos_no_tag, sortAndPage_priority_desc]
    exact pairwise_drop_take (pairwise_stableSort_rankDesc _) skip limit

/-- Equality of every field of a task except the completion flag and the
updated timestamp. -/
def frameEq (t t' : Todo) : Prop :=
  t'.id = t.id ∧ t'.user_id = t.user_id ∧ t'.title = t.title
  ∧ t'.description = t.description ∧ t'.priority = t.priority
  ∧ t'.tags = t.tags ∧ t'.due_date = t.due_date ∧ t'.created_at = t.created_at

/-- C9: `mark_done`/`mark_undone` are minimal-field writes: row by row, the
stored table after the operation agrees with the previous table on every
field except the completion flag and the updated timestamp; the rows matching
the id and owner get exactly the completion flag and `updated_at` written,
and every other row is entirely unchanged. -/
theorem set_completed_minimal_write (db : List Todo) (tid uid : Nat) (now : Int) :
    List.Forall₂
      (fun t t' =>
        frameEq t t'
        ∧ (t.id = tid ∧ t.user_id = uid →
            t' = { t with completed := true, updated_at := now })
        ∧ (¬(t.id = tid ∧ t.user_id = uid) → t' = t))
      db (mark_done db tid uid now).1
  ∧ List.Forall₂
      (fun t t' =>
        frameEq t t'
        ∧ (t.id = tid ∧ t.user_id = uid →
            t' = { t with completed := false, updated_at := now })
        ∧ (¬(t.id = tid ∧ t.user_id = uid) → t' = t))
      db (mark_undone db tid uid now).1 := by
  constructor <;>
  · simp only [mark_done, mark_undone]
    rw [List.forall₂_map_right_iff, List.forall₂_same]
    intro t ht
    by_cases h1 : t.id = tid <;> by_cases h2 : t.user_id = uid <;>
      simp [h1, h2, frameEq]

theorem traverseExcept_ok_of_forall {f : α → Except ε β} {l : List α}
    (h : ∀ a ∈ l, ∃ b, f a = Except.ok b) :
    ∃ out, traverseExcept f l = Except.ok out := by
  induction l with
  | nil => exact ⟨[], rfl⟩
  | cons a as ih =>
      rcases h a (List.mem_cons_self a as) with ⟨b, hb⟩
      rcases ih (fun x hx => h x (List.mem_cons_of_mem a hx)) with ⟨out, hout⟩
      exact ⟨b :: out, by simp [traverseExcept, hb, hout]⟩

/-- C6 amended: when every tool-call record of the agent step is a mapping
carrying the `tool`, `parameters` and `result` keys — which is what the
agent's own extraction produces — the turn succeeds and the response's
`toolCalls` list is exactly the full record list (the mapping filter keeps
everything); a non-mapping record instead aborts the turn with an error
during trace extraction (see the counterexample). -/
theorem well_formed_tool_records_round_trip (tcs : List TCRecord)
    (h : ∀ tc ∈ tcs, ∃ t p r, tc = TCRecord.map (some t) (some p) (some r)) :
    ∃ calls results,
      chat_turn_tool_calls tcs = Except.ok (calls, results, tcs) := by
  have hcalls : ∃ out, traverseExcept extractCallTrace tcs = Except.ok out := by
    apply traverseExcept_ok_of_forall
    intro tc htc
    rcases h tc htc with ⟨t, p, r, rfl⟩
    exact ⟨(t, p), rfl⟩
  have hresults : ∃ out, traverseExcept extractResultTrace tcs = Except.ok out := by
    apply traverseExcept_ok_of_forall
    intro tc htc
    rcases h tc htc with ⟨t, p, r, rfl⟩
    exact ⟨(t, r), rfl⟩
  rcases hcalls with ⟨calls, hcalls⟩
  rcases hresults with ⟨results, hresults⟩
  have hfilter : tcs.filter TCRecord.isMap = tcs := by
    rw [List.filter_eq_self]
    intro tc htc
    rcases h tc htc with ⟨t, p, r, rfl⟩
    rfl
  exact ⟨calls, results, by
    simp [chat_turn_tool_calls, hcalls, hresults, hfilter]⟩

/-- Witness for the C6 amended theorem on a one-record turn. -/
theorem well_formed_tool_records_round_trip_witness :
    ∃ calls results,
      chat_turn_tool_calls
        [TCRecord.map (some "add_task") (some "title=Buy milk") (some "ok")]
        = Except.ok (calls, results,
            [TCRecord.map (some "add_task") (some "title=Buy milk") (some "ok")]) :=
  well_formed_tool_records_round_trip _ (by
    intro tc htc
    rw [List.mem_singleton] at htc
    exact ⟨"add_task", "title=Buy milk", "ok", htc⟩)

/-- C2 counterexample: the task store's `create_todo` performs no validation
at all — it accepts an empty title, a priority outside the enumeration and a
true completion flag, and stores the row unchanged, instead of failing with
a `ValidationError` as the claim states. -/
theorem store_create_accepts_invalid_fields :
    (create_todo [] 7 { title := "", priority := "urgent", completed := true }
        1 0).2
      = ⟨1, 7, "", none, true, "urgent", [], none, 0, 0⟩
  ∧ (create_todo [] 7 { title := "", priority := "urgent", completed := true }
        1 0).1
      = [⟨1, 7, "", none, true, "urgent", [], none, 0, 0⟩] := by
  decide

/-- C2 amended: the validation lives in the tool executor, not the store.
`_add_task` rejects a missing or empty title and a priority outside
low/medium/high with a failure envelope (no exception and no store call),
and whenever it succeeds the stored task has a non-empty title, one of the
three enumerated priorities, and `completed = false`. -/
theorem add_task_validates (db : List Todo) (uid : Nat) (p : AddTaskParams)
    (newId : Nat) (now : Int) :
    (∀ db' t, addTask db uid p newId now = (db', Except.ok t) →
        t.title ≠ ""
      ∧ (t.priority = "low" ∨ t.priority = "medium" ∨ t.priority = "high")
      ∧ t.completed = false ∧ t ∈ db')
  ∧ (p.title = none ∨ p.title = some "" →
      (addTask db uid p newId now).2
        = Except.error ("Missing required field: title", "Task title is required"))
  ∧ (∀ s pr, p.title = some s → s ≠ "" → p.priority = some (some pr) →
      ¬(pr = "low" ∨ pr = "medium" ∨ pr = "high") →
      (addTask db uid p newId now).2
        = Except.error ("Invalid priority level",
            "Priority must be one of low, medium, or high")) := by
  refine ⟨?_, ?_, ?_⟩
  · intro db' t heq
    obtain ⟨ptitle, pdesc, ppriority, ptags, pdue⟩ := p
    cases ptitle with
    | none => simp [addTask] at heq
    | some title =>
        by_cases ht : (title == "") = true
        · simp [addTask, ht] at heq
        · rw [Bool.not_eq_true] at ht
          have htitle : title ≠ "" := by simpa using ht
          cases ppriority with
          | none =>
              simp [addTask, ht, create_todo] at heq
              obtain ⟨h1, h2⟩ := heq
              subst h1; subst h2
              exact ⟨htitle, Or.inr (Or.inl rfl), rfl, by simp⟩
          | some v =>
              cases v with
              | none => simp [addTask, ht] at heq
              | some pr =>
                  by_cases hmem : pr = "low" ∨ pr = "medium" ∨ pr = "high"
                  · simp [addTask, ht, hmem, create_todo] at heq
                    obtain ⟨h1, h2⟩ := heq
                    subst h1; subst h2
                    exact ⟨htitle, hmem, rfl, by simp⟩
                  · simp [addTask, ht, hmem] at heq
  · intro h
    rcases h with h | h
    · simp [addTask, h]
    · simp [addTask, h]
  · intro s pr hs hsne hpr hmem
    have h1 : (s == "") = false := by simpa using hsne
    simp [addTask, hs, h1, hpr, hmem]

/-- Witness for the C2 amended theorem: a successful `add_task`, a missing
title, and an invalid priority, each at a concrete input. -/
theorem add_task_validates_witness :
    ((⟨1, 1, "Buy milk", none, false, "medium", [], none, 0, 0⟩ : Todo).title ≠ ""
      ∧ ((⟨1, 1, "Buy milk", none, false, "medium", [], none, 0, 0⟩ : Todo).priority = "low"
          ∨ (⟨1, 1, "Buy milk", none, false, "medium", [], none, 0, 0⟩ : Todo).priority = "medium"
          ∨ (⟨1, 1, "Buy milk", none, false, "medium", [], none, 0, 0⟩ : Todo).priority = "high")
      ∧ (⟨1, 1, "Buy milk", none, false, "medium", [], none, 0, 0⟩ : Todo).completed = false
      ∧ (⟨1, 1, "Buy milk", none, false, "medium", [], none, 0, 0⟩ : Todo)
          ∈ [(⟨1, 1, "Buy milk", none, false, "medium", [], none, 0, 0⟩ : Todo)])
  ∧ (addTask [] 1 {} 1 0).2
      = Except.error ("Missing required field: title", "Task title is required")
  ∧ (addTask [] 1 { title := some "x", priority := some (some "urgent") } 1 0).2
      = Except.error ("Invalid priority level",
          "Priority must be one of low, medium, or high") :=
  ⟨(add_task_validates [] 1 { title := some "Buy milk" } 1 0).1 _ _ rfl,
   (add_task_validates [] 1 {} 1 0).2.1 (Or.inl rfl),
   (add_task_validates [] 1 { title := some "x", priority := some (some "urgent") }
      1 0).2.2 "x" "urgent" rfl (by decide) rfl (by decide)⟩

/-- C4 counterexample: the executor's filter only removes `None` values, so
an explicit empty string for `title` survives, reaches the store, and clears
the field — the stored title becomes `""` instead of staying "Buy milk". -/
theorem update_task_empty_string_clears_field :
    (updateTask [⟨1, 1, "Buy milk", some "d", false, "medium", [], none, 0, 0⟩]
        1 { task_id := some 1, title := some "" }).2
      = Except.ok ⟨1, 1, "", some "d", false, "medium", [], none, 0, 0⟩ := rfl

/-- C4 amended: the executor filters out only unset/`None` parameters, so an
empty string passed directly does clear the field; the "empty means do not
change" behavior is implemented one layer up, in the agent's `update_task`
tool wrapper, which drops empty-string arguments before calling the
executor.  If no field remains after the filtering, the executor returns the
"No fields to update" failure envelope without touching the store. -/
theorem update_task_filters_none_params :
    (∀ (db : List Todo) (uid tid : Nat),
        agent_update_task db uid tid "" "" "" ""
          = (db, Except.error ("No fields to update",
              "At least one field must be updated")))
  ∧ (∀ (db : List Todo) (uid tid : Nat),
        updateTask db uid { task_id := some tid }
          = (db, Except.error ("No fields to update",
              "At least one field must be updated")))
  ∧ (∀ (db : List Todo) (uid tid : Nat) (priority : String) (t : Todo),
        priority ≠ "" → get_todo_by_id db tid uid = some t →
        ∃ t', (agent_update_task db uid tid "" "" priority "").2 = Except.ok t'
          ∧ t'.title = t.title ∧ t'.description = t.description
          ∧ t'.completed = t.completed ∧ t'.priority = priority
          ∧ t'.tags = t.tags ∧ t'.due_date = t.due_date) := by
  refine ⟨fun db uid tid => rfl, fun db uid tid => rfl, ?_⟩
  intro db uid tid priority t hp hfound
  have hpr : (priority == "") = false := by simpa using hp
  refine ⟨{ t with priority := priority }, ?_, rfl, rfl, rfl, rfl, rfl, rfl⟩
  simp [agent_update_task, hpr, updateTask, update_todo, hfound, applyUpdate]

/-- Witness for the C4 amended theorem at a concrete store. -/
theorem update_task_filters_none_params_witness :
    agent_update_task
        [⟨1, 1, "Buy milk", some "d", false, "medium", [], none, 0, 0⟩]
        1 1 "" "" "" ""
      = ([⟨1, 1, "Buy milk", some "d", false, "medium", [], none, 0, 0⟩],
         Except.error ("No fields to update", "At least one field must be updated"))
  ∧ ∃ t', (agent_update_task
        [⟨1, 1, "Buy milk", some "d", false, "medium", [], none, 0, 0⟩]
        1 1 "" "" "high" "").2 = Except.ok t'
      ∧ t'.title = (⟨1, 1, "Buy milk", some "d", false, "medium", [], none, 0, 0⟩ : Todo).title
      ∧ t'.description = (⟨1, 1, "Buy milk", some "d", false, "medium", [], none, 0, 0⟩ : Todo).description
      ∧ t'.completed = (⟨1, 1, "Buy milk", some "d", false, "medium", [], none, 0, 0⟩ : Todo).completed
      ∧ t'.priority = "high"
      ∧ t'.tags = (⟨1, 1, "Buy milk", some "d", false, "medium", [], none, 0, 0⟩ : Todo).tags
      ∧ t'.due_date = (⟨1, 1, "Buy milk", some "d", false, "medium", [], none, 0, 0⟩ : Todo).due_date :=
  ⟨update_task_filters_none_params.1
      [⟨1, 1, "Buy milk", some "d", false, "medium", [], none, 0, 0⟩] 1 1,
   update_task_filters_none_params.2.2
      [⟨1, 1, "Buy milk", some "d", false, "medium", [], none, 0, 0⟩] 1 1 "high"
      ⟨1, 1, "Buy milk", some "d", false, "medium", [], none, 0, 0⟩
      (by decide) (by decide)⟩

/-- An owner with 100 tasks of which the first 29 are completed. -/
def pctDb : List Todo :=
  (List.range 100).map
    (fun i => ⟨i + 1, 1, "t", none, decide (i < 29), "low", [], none, 0, 0⟩)

/-- C7 counterexample: with 29 of 100 tasks completed the statistics read
returns completion_percentage = 28, not floor(29/100 × 100) = 29: the code
evaluates `int(completed/total*100)` in double precision, and the double
nearest to 29/100 times 100 rounds to 28.999999999999996, which `int()`
truncates to 28. -/
theorem completion_percentage_not_floor :
    (get_user_statistics pctDb 1 0).completion_percentage = 28
  ∧ 29 * 100 / 100 = 29 := by decide

/-- C7 amended: the statistics read reports, over all of the owner's tasks:
the total count; the completed count; pending = total − completed; a
completion percentage that is `int(completed/total*100)` evaluated in
double-precision arithmetic — 0 when there are no tasks, equal to
floor(completed/total × 100) whenever the intermediate doubles are exact
(e.g. the 4-task instance below) but one short of the floor at inputs such
as 29/100, where it is 28; the pending tasks with priority high; the pending
tasks due strictly before now; the pending tasks due within the current
calendar day; and the pending tasks due between now and now + 7 days
inclusive.  On 4 tasks of which 1 is completed (one pending task overdue, a
distinct pending task due today) the result is total=4, completed=1,
pending=3, completion_percentage=25. -/
theorem statistics_fields :
    (∀ (db : List Todo) (uid : Nat) (now : Int),
      (get_user_statistics db uid now).total
          = (db.filter (fun t => t.user_id == uid)).length
      ∧ (get_user_statistics db uid now).completed
          = (db.filter (fun t => t.user_id == uid)).countP (fun t => t.completed)
      ∧ (get_user_statistics db uid now).pending
          = (get_user_statistics db uid now).total
              - (get_user_statistics db uid now).completed
      ∧ (get_user_statistics db uid now).completion_percentage
          = (if 0 < (get_user_statistics db uid now).total then
              pyPercent (get_user_statistics db uid now).completed
                (get_user_statistics db uid now).total
             else 0)
      ∧ (get_user_statistics db uid now).high_priority
          = (db.filter (fun t => t.user_id == uid)).countP
              (fun t => !t.completed && t.priority == "high")
      ∧ (get_user_statistics db uid now).overdue
          = (db.filter (fun t => t.user_id == uid)).countP
              (fun t => !t.completed &&
                (match t.due_date with
                 | some d => decide (d < now)
                 | none => false))
      ∧ (get_user_statistics db uid now).due_today
          = (db.filter (fun t => t.user_id == uid)).countP
              (fun t => !t.completed &&
                (match t.due_date with
                 | some d => decide (dayStart now ≤ d)
                              && decide (d < dayStart now + usPerDay)
                 | none => false))
      ∧ (get_user_statistics db uid now).due_this_week
          = (db.filter (fun t => t.user_id == uid)).countP
              (fun t => !t.completed &&
                (match t.due_date with
                 | some d => decide (now ≤ d) && decide (d ≤ now + 7 * usPerDay)
                 | none => false)))
  ∧ get_user_statistics
      [⟨1, 1, "done", none, true, "low", [], none, 0, 0⟩,
       ⟨2, 1, "over", none, false, "medium", [], some (-3600000000), 0, 0⟩,
       ⟨3, 1, "today", none, false, "high", [], some 64800000000, 0, 0⟩,
       ⟨4, 1, "plain", none, false, "low", [], none, 0, 0⟩]
      1 43200000000
      = ⟨4, 1, 3, 25, 1, 1, 1, 1⟩
  ∧ get_user_statistics pctDb 1 0 = ⟨100, 29, 71, 28, 0, 0, 0, 0⟩ := by
  refine ⟨fun db uid now => ⟨rfl, ?_, rfl, rfl, ?_, ?_, ?_, ?_⟩,
          by decide, by decide⟩
  · rw [List.countP_eq_length_filter]
    exact rfl
  · rw [List.countP_eq_length_filter]
    exact congrArg List.length (List.filter_congr (fun t ht => Bool.and_comm _ _))
  · rw [List.countP_eq_length_filter]
    exact congrArg List.length (List.filter_congr (fun t ht => Bool.and_comm _ _))
  · rw [List.countP_eq_length_filter]
    exact congrArg List.length (List.filter_congr (fun t ht => Bool.and_comm _ _))
  · rw [List.countP_eq_length_filter]
    exact congrArg List.length (List.filter_congr (fun t ht => Bool.and_comm _ _))

end TodoApp
